import Mathlib

/-!
Verification of the ikitsuke location-anchored note application
(`ikitsuke.py`).

The development shallowly embeds the parts of the program that the claims
touch:

* the data model (`Note`, `Entry`, `Coord`);
* the nearby-notes proximity filter (line 205);
* the hashtag AND/OR search loop (lines 296-306);
* the note-creation handler of the placement form (lines 231-244);
* the creator-gated delete block (lines 566-579);
* the `is_viewable` gate for the note panel (lines 474-491) and the
  `post_allowed` gate of the entry form (lines 527-538);
* the AI-reply parsing and recommendation installation (lines 371-409),
  including a faithful model of the regex search, of Python's
  `str.replace`/`str.strip`, and of JSON string decoding;
* the session-state writes to `selected_note_id` / `recommended_note_id`
  (lines 266-273, 323-329, 390-393, 571-579).

Great-circle distance is computed by `geopy` with floating-point
trigonometry; it is modelled as an abstract rational-valued distance
function `Dist` passed to every geometric operation, so all statements
hold for the actual metric as an instance.
-/

namespace Ikitsuke

/-- A latitude/longitude pair, with coordinates as rationals. -/
structure Coord where
  lat : ℚ
  lng : ℚ
deriving DecidableEq, Repr

/-- Abstract distance in kilometres: the model of
`great_circle(a, b).km`. -/
abbrev Dist := Coord → Coord → ℚ

/-- The payload of one entry: the four variants `text`, `image`,
`drawing` and `combined` used by the entry form (lines 549-558). -/
inductive EntryBody where
  | text (data : String)
  | image (data : String)
  | drawing (data : String)
  | combined (text : String) (image : String)
deriving DecidableEq, Repr

/-- One appended page of a note (see the entry dictionaries built at
lines 552-558 and 92-93). -/
structure Entry where
  author_name : String
  timestamp : ℚ
  body : EntryBody
  hashtags : List String
deriving DecidableEq, Repr

/-- A memory note as stored in `notes.json` (see the dictionaries built
at lines 87-94 and 233-238). -/
structure Note where
  id : String
  title : String
  hashtags : List String
  lat : ℚ
  lng : ℚ
  creator_id : String
  creator_name : String
  entries : List Entry
deriving DecidableEq, Repr

/-- The coordinate of a note, `(note['lat'], note['lng'])`. -/
def noteCoord (n : Note) : Coord := ⟨n.lat, n.lng⟩

/-- The nearby-notes filter of line 205:
`[note for note in all_notes if great_circle(user_coords, (note['lat'], note['lng'])).km <= 10]`,
with the origin and the radius as parameters (the program instantiates
the radius with 10). -/
def withinRadius (dist : Dist) (origin : Coord) (radius_km : ℚ)
    (notes : List Note) : List Note :=
  notes.filter (fun note => decide (dist origin (noteCoord note) ≤ radius_km))

/-- The tag set a note is matched against: the note's own hashtags
together with the hashtags of every entry, as accumulated by the loop at
lines 299-301. -/
def allTagsInNote (note : Note) : List String :=
  note.entries.foldl (fun acc e => acc ++ e.hashtags) note.hashtags

/-- The hashtag search loop of lines 297-305: AND mode keeps a note when
all query tags occur in its tag set, OR mode when at least one does;
matches are appended in the input order. -/
def hashtag_search (notes : List Note) (queries : List String)
    (andMode : Bool) : List Note :=
  notes.filter (fun note =>
    if andMode then queries.all (fun q => decide (q ∈ allTagsInNote note))
    else queries.any (fun q => decide (q ∈ allTagsInNote note)))

/-- The note-creation handler of the placement form (lines 239-240):
`all_notes.append(new_note); save_data(NOTES_FILE, all_notes)`.
There is no duplicate-id check on this path. -/
def create_note (all_notes : List Note) (new_note : Note) : List Note :=
  all_notes ++ [new_note]

/-- Store-level failures named by the specification's error taxonomy. -/
inductive StoreError where
  | notFound
  | permissionError
  | duplicateId
deriving DecidableEq, Repr

/-- The delete path: the note is looked up by the selected id
(line 475), the delete control exists only when
`selected_note['creator_id'] == current_user_info['id']` (line 566) —
a denial is rendered as `permissionError` — and the delete itself
filters the note out of the collection (line 572). -/
def delete_note (all_notes : List Note) (noteId requesterId : String) :
    Except StoreError (List Note) :=
  match all_notes.find? (fun n => n.id == noteId) with
  | none => .error .notFound
  | some note =>
    if note.creator_id == requesterId then
      .ok (all_notes.filter (fun n => !(n.id == noteId)))
    else
      .error .permissionError

/-- The `is_viewable` computation of lines 477-487: permitted when the
selected note is the recommended one or the user is within 10 km; the
distance branch is reachable only with a location sample. -/
def is_viewable_gate (dist : Dist) (user_location : Option Coord)
    (recommended_note_id : Option String) (selected_note : Note) : Bool :=
  let is_recommended := decide (recommended_note_id = some selected_note.id)
  let is_close_enough :=
    match user_location with
    | some u => decide (dist u (noteCoord selected_note) ≤ 10)
    | none => false
  is_recommended || is_close_enough

/-- The `post_allowed` computation of lines 528-538: a post is permitted
exactly when a location sample exists and its distance to the note is at
most 10 km; there is no recommendation override on this path. -/
def post_allowed_gate (dist : Dist) (user_location : Option Coord)
    (selected_note : Note) : Bool :=
  match user_location with
  | some u => decide (dist u (noteCoord selected_note) ≤ 10)
  | none => false

/-- The observable outcome of a gate evaluation: permit, the distinct
location-unavailable denial, or the too-far denial. -/
inductive GateOutcome where
  | permit
  | denyLocationUnavailable
  | denyTooFar
deriving DecidableEq, Repr

/-- The full branch structure of the viewing gate (lines 486-491):
permit when recommended or close, otherwise the location-unavailable
error when no sample exists, otherwise the too-far warning. -/
def view_gate_outcome (dist : Dist) (user_location : Option Coord)
    (recommended_note_id : Option String) (selected_note : Note) :
    GateOutcome :=
  if is_viewable_gate dist user_location recommended_note_id selected_note then
    .permit
  else
    match user_location with
    | none => .denyLocationUnavailable
    | some _ => .denyTooFar

/-- The full branch structure of the posting gate (lines 528-538):
with a sample, permit iff the distance is at most 10 km, otherwise the
too-far error; without a sample, the location-unavailable error. -/
def post_gate_outcome (dist : Dist) (user_location : Option Coord)
    (selected_note : Note) : GateOutcome :=
  match user_location with
  | some u =>
    if dist u (noteCoord selected_note) ≤ 10 then .permit else .denyTooFar
  | none => .denyLocationUnavailable

/-- A concrete distance function used for counterexamples and witnesses:
a rational stand-in for the spherical metric (111 km per degree, summed
squared differences), positive away from the diagonal like the real
great-circle distance. -/
def distEx : Dist := fun u v =>
  111 * ((u.lat - v.lat) ^ 2 + (u.lng - v.lng) ^ 2)

/-- A concrete note used in witnesses and counterexamples. -/
def exNote1 : Note :=
  { id := "n1", title := "t1", hashtags := ["#a"], lat := 35, lng := 139,
    creator_id := "u1", creator_name := "U1", entries := [] }

/-- A second concrete note sharing `exNote1`'s id. -/
def exNote1dup : Note :=
  { id := "n1", title := "t2", hashtags := [], lat := 35, lng := 139,
    creator_id := "u2", creator_name := "U2", entries := [] }

/-- Python's whitespace class for `\s` and `str.strip` on the ASCII
range: space, tab, newline, carriage return, vertical tab, form feed. -/
def isPyWhitespace (c : Char) : Bool :=
  c = ' ' || c = '\t' || c = '\n' || c = '\r' || c = '\x0b' || c = '\x0c'

/-- Drop leading whitespace characters. -/
def dropWs : List Char → List Char
  | [] => []
  | c :: rest => if isPyWhitespace c then dropWs rest else c :: rest

/-- Split off the maximal run of leading whitespace (the `\s*` pieces of
the pattern: greedy matching needs no backtracking here because each
`\s*` is followed by a non-whitespace literal). -/
def spanWs : List Char → List Char × List Char
  | [] => ([], [])
  | c :: rest =>
    if isPyWhitespace c then
      let (w, r) := spanWs rest
      (c :: w, r)
    else ([], c :: rest)

/-- Consume an exact literal from the front of the input, returning the
remainder on success. -/
def stripLit : List Char → List Char → Option (List Char)
  | [], s => some s
  | _ :: _, [] => none
  | l :: ls, c :: cs => if c = l then stripLit ls cs else none

/-- The lazy `.*?"\s*\}` tail of the pattern, entered just after the
opening quote of the value: find the shortest prefix `v` after which a
quote, optional whitespace and a closing brace follow (with `re.DOTALL`
the dot also spans newlines). Returns the value characters, the
whitespace between the closing quote and the brace, and the input after
the whole match. -/
def scanValue : List Char → Option (List Char × List Char × List Char)
  | [] => none
  | c :: rest =>
    if c = '"' then
      match spanWs rest with
      | (w, '\x7d' :: u) => some ([], w, u)
      | _ =>
        match scanValue rest with
        | some (v, w, u) => some (c :: v, w, u)
        | none => none
    else
      match scanValue rest with
      | some (v, w, u) => some (c :: v, w, u)
      | none => none

/-- The literal key part of the pattern, `"recommended_note_id":`. -/
def recoKeyLit : List Char := "\"recommended_note_id\":".data

/-- Match the regex `\{\s*"recommended_note_id":\s*".*?"\s*\}` (with
`re.DOTALL`, line 372) anchored at the front of the input. On success,
return the full matched substring, the raw value characters, and the
rest of the input after the match. -/
def matchReco (s : List Char) : Option (List Char × List Char × List Char) :=
  match s with
  | '\x7b' :: s1 =>
    let (w1, s2) := spanWs s1
    match stripLit recoKeyLit s2 with
    | none => none
    | some s3 =>
      let (w2, s4) := spanWs s3
      match s4 with
      | '"' :: s5 =>
        match scanValue s5 with
        | some (v, w3, rest) =>
          some ('\x7b' :: (w1 ++ recoKeyLit ++ w2 ++ '"' :: (v ++ '"' :: (w3 ++ ['\x7d']))),
                v, rest)
        | none => none
      | _ => none
  | _ => none

/-- `re.search`: the leftmost match of the pattern anywhere in the
input, returning the matched substring and the raw value characters. -/
def searchReco : List Char → Option (List Char × List Char)
  | [] => none
  | c :: rest =>
    match matchReco (c :: rest) with
    | some (m, v, _) => some (m, v)
    | none => searchReco rest

/-- Fuelled helper for `removeAllOcc`; the fuel is the input length, and
each step either consumes one character or a whole non-empty occurrence
of the pattern. -/
def removeAllOccAux (pat : List Char) : Nat → List Char → List Char
  | _, [] => []
  | 0, s => s
  | fuel + 1, c :: rest =>
    match stripLit pat (c :: rest) with
    | some r => removeAllOccAux pat fuel r
    | none => c :: removeAllOccAux pat fuel rest

/-- Python's `msg.replace(json_str, "")` (line 376): delete every
non-overlapping occurrence of the pattern, scanning left to right. -/
def removeAllOcc (pat s : List Char) : List Char :=
  removeAllOccAux pat s.length s

/-- Python's `str.strip()`: drop leading and trailing whitespace. -/
def stripChars (s : List Char) : List Char :=
  ((dropWs s).reverse |> dropWs).reverse

/-- The numeric value of a hexadecimal digit. -/
def hexVal (c : Char) : Option Nat :=
  if '0' ≤ c ∧ c ≤ '9' then some (c.toNat - '0'.toNat)
  else if 'a' ≤ c ∧ c ≤ 'f' then some (c.toNat - 'a'.toNat + 10)
  else if 'A' ≤ c ∧ c ≤ 'F' then some (c.toNat - 'A'.toNat + 10)
  else none

/-- JSON string-body decoding as performed by `json.loads` (line 379) on
the value between the quotes: escape sequences are decoded, and an
unescaped quote, an invalid escape or a raw control character makes the
whole parse fail (the `json.JSONDecodeError` branch, lines 404-406). -/
def jsonStringDecode : List Char → Option (List Char)
  | [] => some []
  | '\\' :: [] => none
  | '\\' :: e :: rest =>
    if e = '"' then (('"' : Char) :: ·) <$> jsonStringDecode rest
    else if e = '\\' then (('\\' : Char) :: ·) <$> jsonStringDecode rest
    else if e = '/' then (('/' : Char) :: ·) <$> jsonStringDecode rest
    else if e = 'b' then (('\x08' : Char) :: ·) <$> jsonStringDecode rest
    else if e = 'f' then (('\x0c' : Char) :: ·) <$> jsonStringDecode rest
    else if e = 'n' then (('\n' : Char) :: ·) <$> jsonStringDecode rest
    else if e = 'r' then (('\r' : Char) :: ·) <$> jsonStringDecode rest
    else if e = 't' then (('\t' : Char) :: ·) <$> jsonStringDecode rest
    else if e = 'u' then
      match rest with
      | h1 :: h2 :: h3 :: h4 :: rest4 =>
        match hexVal h1, hexVal h2, hexVal h3, hexVal h4 with
        | some a, some b, some c, some d =>
          (Char.ofNat (((a * 16 + b) * 16 + c) * 16 + d) :: ·) <$> jsonStringDecode rest4
        | _, _, _, _ => none
      | _ => none
    else none
  | '"' :: _ => none
  | c :: rest =>
    if c.toNat < 32 then none else (c :: ·) <$> jsonStringDecode rest

/-- One transcript turn of the chat (`{"role": ..., "content": ...}`). -/
structure ChatTurn where
  role : String
  content : String
deriving DecidableEq, Repr

/-- The AI-session slice of `st.session_state`: transcript,
recommendation, selection and the chat-active flag (defaults at lines
108-120). -/
structure SessionState where
  chat_messages : List ChatTurn
  recommended_note_id : Option String
  selected_note_id : Option String
  chat_started : Bool
deriving DecidableEq, Repr

/-- The session-state defaults (lines 108-120): empty transcript, no
recommendation, no selection, chat not started. -/
def initialSession : SessionState :=
  { chat_messages := [], recommended_note_id := none,
    selected_note_id := none, chat_started := false }

/-- Reply parsing (lines 372-380): the first pattern match in the raw
model reply, the conversational remainder
`msg.replace(json_str, "").strip()`, and the JSON-decoded id. `none`
when the pattern does not occur or the matched JSON fails to parse. -/
def extractRecommendation (msg : String) : Option (String × String) :=
  match searchReco msg.data with
  | some (jsonStr, rawValue) =>
    match jsonStringDecode rawValue with
    | some idChars =>
      some (⟨idChars⟩, ⟨stripChars (removeAllOcc jsonStr msg.data)⟩)
    | none => none
  | none => none

/-- Processing of one model reply (lines 371-409): on a pattern match
with a parseable, non-empty id, the conversational remainder (when
non-empty) is appended as an assistant turn and the id is installed as
both the recommendation and the selection with the chat ended; on a
parse failure or no match, the whole reply is appended verbatim and the
session state is otherwise unchanged; on an empty id nothing happens. -/
def processModelReply (st : SessionState) (msg : String) : SessionState :=
  match searchReco msg.data with
  | some (jsonStr, rawValue) =>
    let conversation_text : String := ⟨stripChars (removeAllOcc jsonStr msg.data)⟩
    match jsonStringDecode rawValue with
    | some idChars =>
      let reco_id : String := ⟨idChars⟩
      if reco_id ≠ "" then
        { chat_messages :=
            if conversation_text ≠ "" then
              st.chat_messages ++ [⟨"assistant", conversation_text⟩]
            else st.chat_messages,
          recommended_note_id := some reco_id,
          selected_note_id := some reco_id,
          chat_started := false }
      else st
    | none =>
      { st with chat_messages := st.chat_messages ++ [⟨"assistant", msg⟩] }
  | none =>
    { st with chat_messages := st.chat_messages ++ [⟨"assistant", msg⟩] }

/-- The fixed assistant greeting seeded at chat start (line 326). -/
def greetingText : String :=
  "こんにちは！どんな場所の思い出に浸りたい気分ですか？例えば、「静かな場所」「美味しいものが食べられる場所」など、あなたの気分や興味を教えてください。"

/-- The writes to `selected_note_id` / `recommended_note_id` performed
by the UI handlers: selecting a note in write mode (lines 266-268),
starting the AI chat (lines 323-329), installing a recommendation
(lines 390-393), and deleting the selected note (lines 575-578). -/
inductive UiEvent where
  | selectNote (selected_id : Option String)
  | startChat
  | recommend (reco_id : String)
  | deleteSelected
deriving DecidableEq, Repr

/-- One step of the session-state machine for the events above, as the
handlers write it in the source. -/
def uiStep (st : SessionState) (ev : UiEvent) : SessionState :=
  match ev with
  | .selectNote sid =>
    match sid with
    | some i =>
      if i ≠ "" ∧ some i ≠ st.selected_note_id then
        { st with selected_note_id := some i, recommended_note_id := none }
      else st
    | none => st
  | .startChat =>
    { st with
        chat_started := true
        chat_messages := [⟨"assistant", greetingText⟩]
        recommended_note_id := none }
  | .recommend rid =>
    { st with
        recommended_note_id := some rid
        selected_note_id := some rid
        chat_started := false }
  | .deleteSelected =>
    { st with selected_note_id := none, recommended_note_id := none }

/-- The invariant behind C10: a live recommendation always coincides
with the current selection. -/
def recoSelInvariant (st : SessionState) : Prop :=
  st.recommended_note_id = none
  ∨ st.recommended_note_id = st.selected_note_id

/-- C6: the proximity filter returns exactly the notes whose distance
from the origin is at most the radius (boundary inclusive), and it
preserves the input order (the result is a sublist of the input); as a
plain function of its arguments it is deterministic and side-effect
free. -/
theorem withinRadius_exact (dist : Dist) (origin : Coord) (r : ℚ)
    (notes : List Note) :
    (∀ n, n ∈ withinRadius dist origin r notes ↔
        n ∈ notes ∧ dist origin (noteCoord n) ≤ r)
    ∧ (withinRadius dist origin r notes).Sublist notes := by
  constructor
  · intro n
    simp [withinRadius]
  · exact List.filter_sublist _

/-- C9: for a non-empty query, every note returned by AND-mode hashtag
search is also returned by OR-mode search on the same corpus. -/
theorem hashtag_search_and_subset_or (notes : List Note)
    (queries : List String) (hq : queries ≠ []) (n : Note)
    (hn : n ∈ hashtag_search notes queries true) :
    n ∈ hashtag_search notes queries false := by
  simp only [hashtag_search, List.mem_filter] at hn ⊢
  rw [if_pos trivial] at hn
  rw [if_neg (by simp)]
  obtain ⟨hmem, hall⟩ := hn
  refine ⟨hmem, ?_⟩
  cases queries with
  | nil => exact absurd rfl hq
  | cons q qs =>
    rw [List.any_eq_true]
    rw [List.all_eq_true] at hall
    exact ⟨q, List.mem_cons_self q qs, hall q (List.mem_cons_self q qs)⟩

theorem hashtag_search_and_subset_or_witness :
    (["#a"] : List String) ≠ []
    ∧ exNote1 ∈ hashtag_search [exNote1] ["#a"] true
    ∧ exNote1 ∈ hashtag_search [exNote1] ["#a"] false :=
  ⟨by decide,
   by simp [hashtag_search, allTagsInNote, exNote1],
   hashtag_search_and_subset_or [exNote1] ["#a"] (by decide) exNote1
     (by simp [hashtag_search, allTagsInNote, exNote1])⟩

/-- C5: whenever the requester differs from the creator of the note
found under the given id, the delete operation fails with the permission
error; no new collection is produced, so the note and its entries
remain. Deletion can therefore only ever be performed by the creator. -/
theorem delete_note_requires_creator (all_notes : List Note)
    (noteId requesterId : String) (note : Note)
    (hfind : all_notes.find? (fun n => n.id == noteId) = some note)
    (hne : requesterId ≠ note.creator_id) :
    delete_note all_notes noteId requesterId = .error .permissionError := by
  have hbeq : (note.creator_id == requesterId) = false :=
    beq_eq_false_iff_ne.mpr (fun h => hne h.symm)
  simp [delete_note, hfind, hbeq]

theorem delete_note_requires_creator_witness :
    ([exNote1].find? (fun n => n.id == "n1") = some exNote1)
    ∧ ("u2" : String) ≠ exNote1.creator_id
    ∧ delete_note [exNote1] "n1" "u2" = .error .permissionError :=
  ⟨rfl, by decide,
   delete_note_requires_creator [exNote1] "n1" "u2" exNote1 rfl (by decide)⟩

/-- C2 counterexample: creating a note whose id already exists in the
store does not fail — there is no duplicate-id check on the creation
path — and the store size grows, refuting both the `DuplicateIdError`
and the size-unchanged parts of the claim at this concrete input. -/
theorem create_note_duplicate_succeeds :
    exNote1dup.id ∈ ([exNote1].map Note.id)
    ∧ (create_note [exNote1] exNote1dup).length ≠ ([exNote1] : List Note).length := by
  constructor
  · simp [exNote1, exNote1dup]
  · simp [create_note]

/-- C2 amended: a create call whose id already exists in the store
nevertheless succeeds, appending the new note and growing the store by
one; no error is raised. -/
theorem create_note_no_duplicate_check (all_notes : List Note)
    (new_note : Note) (hdup : new_note.id ∈ all_notes.map Note.id) :
    create_note all_notes new_note = all_notes ++ [new_note]
    ∧ (create_note all_notes new_note).length = all_notes.length + 1 := by
  exact ⟨rfl, by simp [create_note]⟩

theorem create_note_no_duplicate_check_witness :
    exNote1dup.id ∈ ([exNote1].map Note.id)
    ∧ create_note [exNote1] exNote1dup = [exNote1] ++ [exNote1dup]
    ∧ (create_note [exNote1] exNote1dup).length = ([exNote1] : List Note).length + 1 :=
  ⟨by simp [exNote1, exNote1dup],
   (create_note_no_duplicate_check [exNote1] exNote1dup (by simp [exNote1, exNote1dup])).1,
   (create_note_no_duplicate_check [exNote1] exNote1dup (by simp [exNote1, exNote1dup])).2⟩

/-- C1 counterexample: with the user 1 degree away (far outside 10 km)
and the selected note being the recommended one, the claimed common rule
(within 10 km OR recommended) holds, yet the posting gate denies — the
append gate has no recommendation override, so it does not apply the
same rule as the viewing gate. -/
theorem post_gate_ignores_recommendation :
    ¬ (post_allowed_gate distEx (some ⟨36, 140⟩) exNote1 = true ↔
        (distEx ⟨36, 140⟩ (noteCoord exNote1) ≤ 10
          ∨ (some "n1" : Option String) = some exNote1.id)) := by
  intro h
  have hpost : post_allowed_gate distEx (some ⟨36, 140⟩) exNote1 = true :=
    h.mpr (Or.inr rfl)
  have hle : distEx ⟨36, 140⟩ (noteCoord exNote1) ≤ 10 := by
    simpa [post_allowed_gate] using hpost
  norm_num [distEx, noteCoord, exNote1] at hle

/-- C1 amended: the viewing gate permits exactly when the user is within
10 km or the note is the recommended one, while the posting gate permits
exactly when a location sample exists and is within 10 km — the
recommendation override applies to viewing only. -/
theorem gates_characterization (dist : Dist) (user_location : Option Coord)
    (reco : Option String) (note : Note) :
    (is_viewable_gate dist user_location reco note = true ↔
      ((∃ u, user_location = some u ∧ dist u (noteCoord note) ≤ 10)
        ∨ reco = some note.id))
    ∧ (post_allowed_gate dist user_location note = true ↔
      (∃ u, user_location = some u ∧ dist u (noteCoord note) ≤ 10)) := by
  cases user_location with
  | none => simp [is_viewable_gate, post_allowed_gate]
  | some u => simp [is_viewable_gate, post_allowed_gate, or_comm]

/-- C3 counterexample: with no location sample ever taken, the viewing
gate still permits the recommended note instead of failing with the
location-unavailable condition, refuting the claim's "regardless of
which note is targeted". -/
theorem view_gate_permits_recommended_without_location :
    view_gate_outcome distEx none (some "n1") exNote1 = GateOutcome.permit
    ∧ view_gate_outcome distEx none (some "n1") exNote1
        ≠ GateOutcome.denyLocationUnavailable := by
  constructor
  · rfl
  · intro h
    simpa [view_gate_outcome, is_viewable_gate, exNote1] using h

/-- C3 amended: with no location sample, the posting gate always fails
with the distinct location-unavailable condition, and the viewing gate
does so exactly when the selected note is not the recommended one (the
recommended note is permitted even without a sample). -/
theorem gates_location_unavailable (dist : Dist) (reco : Option String)
    (note : Note) :
    (reco ≠ some note.id →
      view_gate_outcome dist none reco note = .denyLocationUnavailable)
    ∧ (reco = some note.id →
      view_gate_outcome dist none reco note = .permit)
    ∧ post_gate_outcome dist none note = .denyLocationUnavailable := by
  refine ⟨fun h => ?_, fun h => ?_, rfl⟩
  · simp [view_gate_outcome, is_viewable_gate, h]
  · simp [view_gate_outcome, is_viewable_gate, h]

theorem gates_location_unavailable_witness :
    ((some "zzz" : Option String) ≠ some exNote1.id)
    ∧ view_gate_outcome distEx none (some "zzz") exNote1 = .denyLocationUnavailable
    ∧ post_gate_outcome distEx none exNote1 = .denyLocationUnavailable :=
  ⟨by decide,
   (gates_location_unavailable distEx (some "zzz") exNote1).1 (by decide),
   (gates_location_unavailable distEx (some "zzz") exNote1).2.2⟩

/-- A concrete in-chat session state used in witnesses: greeting seeded,
chat active, nothing recommended or selected. -/
def exSession : SessionState :=
  { chat_messages := [⟨"assistant", greetingText⟩],
    recommended_note_id := none, selected_note_id := none,
    chat_started := true }

/-- C7: on the reply `Here you go! {"recommended_note_id": "abc123"}`
the parsing extracts the id `abc123` and the whitespace-trimmed
conversational remainder `Here you go!`. -/
theorem extractRecommendation_example :
    extractRecommendation
        "Here you go! \x7b\"recommended_note_id\": \"abc123\"\x7d"
      = some ("abc123", "Here you go!") := by
  decide

/-- C8: when no substring of the reply matches the recommendation
pattern, the whole reply is appended verbatim as an assistant turn and
the session is otherwise unchanged: the chat stays active and no
recommendation or selection is installed. -/
theorem processModelReply_no_match (st : SessionState) (msg : String)
    (hnone : searchReco msg.data = none) :
    processModelReply st msg
      = { st with chat_messages := st.chat_messages ++ [⟨"assistant", msg⟩] }
    ∧ (processModelReply st msg).chat_started = st.chat_started
    ∧ (processModelReply st msg).recommended_note_id = st.recommended_note_id
    ∧ (processModelReply st msg).selected_note_id = st.selected_note_id := by
  have h : processModelReply st msg
      = { st with chat_messages := st.chat_messages ++ [⟨"assistant", msg⟩] } := by
    simp [processModelReply, hnone]
  exact ⟨h, by rw [h], by rw [h], by rw [h]⟩

theorem processModelReply_no_match_witness :
    searchReco "hello".data = none
    ∧ processModelReply exSession "hello"
        = { exSession with
              chat_messages := exSession.chat_messages ++ [⟨"assistant", "hello"⟩] } :=
  ⟨by decide, (processModelReply_no_match exSession "hello" (by decide)).1⟩

/-- C4 counterexample: the model emits the id `zzz`, which is absent
from a store holding only `n1`; the reply-processing step nevertheless
installs `zzz` as both the recommendation and the selection — the
resolution is not treated as failed and the invalid id is not kept out
of the session. -/
theorem invalid_recommendation_installed :
    ("zzz" ∉ ([exNote1].map Note.id))
    ∧ (processModelReply exSession
        "\x7b\"recommended_note_id\": \"zzz\"\x7d").recommended_note_id = some "zzz"
    ∧ (processModelReply exSession
        "\x7b\"recommended_note_id\": \"zzz\"\x7d").selected_note_id = some "zzz" := by
  refine ⟨by decide, by decide, by decide⟩

/-- C4 amended: whenever the reply parsing extracts a non-empty id, the
id is installed as the session's recommendation and selection and the
chat is ended, with no validation against the note store (the program
does not crash on an unknown id: the later store lookup merely controls
the success message and the recentering). -/
theorem recommendation_installed_unconditionally (st : SessionState)
    (msg : String) (jsonStr rawValue idChars : List Char)
    (hfind : searchReco msg.data = some (jsonStr, rawValue))
    (hdecode : jsonStringDecode rawValue = some idChars)
    (hne : (⟨idChars⟩ : String) ≠ "") :
    (processModelReply st msg).recommended_note_id = some ⟨idChars⟩
    ∧ (processModelReply st msg).selected_note_id = some ⟨idChars⟩
    ∧ (processModelReply st msg).chat_started = false := by
  simp only [processModelReply, hfind, hdecode]
  rw [if_pos hne]
  exact ⟨rfl, rfl, rfl⟩

theorem recommendation_installed_unconditionally_witness :
    searchReco "\x7b\"recommended_note_id\": \"zzz\"\x7d".data
      = some ("\x7b\"recommended_note_id\": \"zzz\"\x7d".data, "zzz".data)
    ∧ jsonStringDecode "zzz".data = some "zzz".data
    ∧ (⟨"zzz".data⟩ : String) ≠ ""
    ∧ (processModelReply exSession
        "\x7b\"recommended_note_id\": \"zzz\"\x7d").chat_started = false :=
  ⟨by decide, by decide, by decide,
   (recommendation_installed_unconditionally exSession
      "\x7b\"recommended_note_id\": \"zzz\"\x7d"
      "\x7b\"recommended_note_id\": \"zzz\"\x7d".data "zzz".data "zzz".data
      (by decide) (by decide) (by decide)).2.2⟩

/-- C10: selecting a (non-empty) note id different from the current
selection clears the recommendation, deleting the selected note clears
the recommendation, every UI event preserves the invariant that a live
recommendation coincides with the selection, and every event sequence
from the initial session state keeps that invariant — so the
distance-bypass override can only apply to the most recently recommended
note while it is still the selected one. -/
theorem recommendation_cleared_and_tracks_selection :
    (∀ (st : SessionState) (i : String), i ≠ "" →
      some i ≠ st.selected_note_id →
      (uiStep st (.selectNote (some i))).recommended_note_id = none)
    ∧ (∀ st : SessionState,
      (uiStep st .deleteSelected).recommended_note_id = none)
    ∧ (∀ (st : SessionState) (ev : UiEvent),
      recoSelInvariant st → recoSelInvariant (uiStep st ev))
    ∧ (∀ evs : List UiEvent,
      recoSelInvariant (evs.foldl uiStep initialSession)) := by
  have hsel : ∀ (st : SessionState) (i : String), i ≠ "" →
      some i ≠ st.selected_note_id →
      (uiStep st (.selectNote (some i))).recommended_note_id = none := by
    intro st i h1 h2
    simp only [uiStep]
    rw [if_pos ⟨h1, h2⟩]
  have hpres : ∀ (st : SessionState) (ev : UiEvent),
      recoSelInvariant st → recoSelInvariant (uiStep st ev) := by
    intro st ev h
    cases ev with
    | selectNote sid =>
      cases sid with
      | none => exact h
      | some i =>
        by_cases hc : i ≠ "" ∧ some i ≠ st.selected_note_id
        · rw [uiStep.eq_def]
          simp only [if_pos hc]
          exact Or.inl rfl
        · rw [uiStep.eq_def]
          simp only [if_neg hc]
          exact h
    | startChat => exact Or.inl rfl
    | recommend rid => exact Or.inr rfl
    | deleteSelected => exact Or.inl rfl
  refine ⟨hsel, fun st => rfl, hpres, ?_⟩
  intro evs
  have aux : ∀ (l : List UiEvent) (st : SessionState), recoSelInvariant st →
      recoSelInvariant (l.foldl uiStep st) := by
    intro l
    induction l with
    | nil => exact fun st h => h
    | cons e es ih => exact fun st h => ih _ (hpres st e h)
  exact aux evs initialSession (Or.inl rfl)

theorem recommendation_cleared_witness :
    ("n2" : String) ≠ ""
    ∧ (some "n2" : Option String) ≠ exSession.selected_note_id
    ∧ (uiStep exSession (.selectNote (some "n2"))).recommended_note_id = none
    ∧ (uiStep exSession .deleteSelected).recommended_note_id = none
    ∧ recoSelInvariant
        ([UiEvent.recommend "n1", UiEvent.selectNote (some "n2")].foldl
          uiStep initialSession) :=
  ⟨by decide, by decide,
   recommendation_cleared_and_tracks_selection.1 exSession "n2"
     (by decide) (by decide),
   recommendation_cleared_and_tracks_selection.2.1 exSession,
   recommendation_cleared_and_tracks_selection.2.2.2
     [UiEvent.recommend "n1", UiEvent.selectNote (some "n2")]⟩

end Ikitsuke
